import Mathlib

/-!
Verification of the OATY 3.0 / Mandexor Memory production-planning repository.

The repository holds two source files: `create_excel_from_case.py`, which
writes the case-study workbook (sheets Actual_1999, Forecast_2000_weekly,
Volume_2000, Costs, Factory_loading_1999) from hand-entered constants, and
`app.py`, a static HTML dashboard whose stats banner displays the annual
demand figure.  The per-month allocation engine described by the
specification is not among the source files, so it is modelled here from the
specification's own contract (see the definitions marked as such below).
-/

/-- Month labels; `create_excel_from_case.py` repeats this literal list as the
`Month` column of every sheet it writes. -/
def monthLabels : List String :=
  ["Jan", "Feb", "Mar", "Apr", "May", "Jun", "Jul", "Aug", "Sep", "Oct", "Nov", "Dec"]

/-- Actual_1999 sheet, `Consumer` column. -/
def actual_1999_Consumer : List ℕ :=
  [5500, 5190, 5950, 7100, 5500, 5050, 4900, 4750, 5050, 5600, 5150, 7550]

/-- Actual_1999 sheet, `PC` column. -/
def actual_1999_PC : List ℕ :=
  [7950, 7560, 8800, 10400, 8300, 7250, 7190, 7050, 7550, 7750, 8800, 12150]

/-- Actual_1999 sheet, `Professional` column. -/
def actual_1999_Professional : List ℕ :=
  [2750, 2650, 3050, 3500, 2700, 2500, 2410, 2350, 2550, 2700, 2600, 3800]

/-- Actual_1999 sheet, `Total` column. -/
def actual_1999_Total : List ℕ :=
  [16200, 15400, 17800, 21000, 16500, 14800, 14500, 14150, 15150, 16050, 16550, 23500]

/-- Forecast_2000_weekly sheet, `Consumer` column. -/
def forecast_2000_weekly_Consumer : List ℕ :=
  [5960, 6090, 6030, 6540, 5800, 5000, 5000, 5000, 5000, 5500, 5600, 8000]

/-- Forecast_2000_weekly sheet, `PC` column. -/
def forecast_2000_weekly_PC : List ℕ :=
  [8940, 9550, 9510, 9770, 8450, 7500, 7500, 7500, 8000, 8200, 8500, 12000]

/-- Forecast_2000_weekly sheet, `Professional` column. -/
def forecast_2000_weekly_Professional : List ℕ :=
  [2980, 3220, 3160, 3290, 2900, 2500, 2500, 2500, 2500, 2800, 2900, 4000]

/-- Forecast_2000_weekly sheet, `Total` column. -/
def forecast_2000_weekly_Total : List ℕ :=
  [17800, 18860, 18700, 19600, 17150, 15000, 15000, 15000, 15500, 16500, 17000, 24000]

/-- Volume_2000 sheet, `Production_weeks` column. -/
def volume_2000_Production_weeks : List ℕ :=
  [4, 3, 4, 4, 5, 4, 3, 3, 4, 5, 4, 4]

/-- Volume_2000 sheet, `Sales_weeks` column. -/
def volume_2000_Sales_weeks : List ℕ :=
  [4, 4, 5, 4, 5, 4, 4, 5, 4, 5, 4, 4]

/-- Volume_2000 sheet, `Avg_weekly_demand` column. -/
def volume_2000_Avg_weekly_demand : List ℕ :=
  [17880, 18860, 18700, 19600, 17150, 15000, 15000, 15000, 15500, 16500, 17000, 24000]

/-- Volume_2000 sheet, `Total_months_demand` column. -/
def volume_2000_Total_months_demand : List ℕ :=
  [71520, 75440, 93500, 78400, 85750, 60000, 60000, 75000, 62000, 82500, 68000, 96000]

/-- Volume_2000 sheet, `Cumulative_demand` column. -/
def volume_2000_Cumulative_demand : List ℕ :=
  [71520, 146960, 240460, 318860, 404610, 464610, 524610, 599610, 661610, 744110, 812110, 908110]

/-- The column names of the Volume_2000 sheet, in the order the generator
writes them. -/
def volume_2000_columns : List String :=
  ["Month", "Production_weeks", "Sales_weeks", "Avg_weekly_demand",
   "Total_months_demand", "Cumulative_demand"]

/-- Costs sheet, `Parameter` column. -/
def costs_Parameter : List String :=
  ["Holding_cost_pct_annual", "Overtime_weekday_mult", "Overtime_sunday_mult",
   "Subcontract_cost_min_pct", "Subcontract_cost_max_pct",
   "Capacity_drives_per_week", "Warehouse_capacity_drives"]

/-- Costs sheet, `Value` column. -/
def costs_Value : List ℚ :=
  [20, 1.5, 2.0, 120, 125, 16500, 20000]

/-- The Costs sheet viewed as a parameter-name-to-value table (the two
columns zipped row by row). -/
def costsTable : List (String × ℚ) :=
  costs_Parameter.zip costs_Value

/-- Factory_loading_1999 sheet, `Forecast_Jan` column. -/
def factory_loading_Forecast_Jan : List ℕ :=
  [14500, 15050, 15900, 20500, 17050, 14300, 15000, 13100, 14200, 14800, 16300, 18700]

/-- Factory_loading_1999 sheet, `Actual_std_hrs` column. -/
def factory_loading_Actual_std_hrs : List ℕ :=
  [14850, 14500, 16150, 19200, 15400, 13600, 13300, 13000, 13900, 14700, 15150, 21500]

/-- The annual-demand figure displayed by the stats banner of `app.py`
(the value `908,110` under the label `Annual Demand (units)`). -/
def dashboardAnnualDemand : ℕ := 908110

/-- Running totals of a list: entry `i` is the sum of entries `0..i` of the
input (used to state what the `Cumulative_demand` column should be). -/
def runningTotals (l : List ℕ) : List ℕ :=
  (l.scanl (· + ·) 0).tail

/-- Modelled from the spec: the four allocation strategies of the Allocation
Engine (the engine's source is not in the repository's source files). -/
inductive Strategy where
  | chase
  | level
  | subcontractHeavy
  | hybrid
deriving DecidableEq, Repr

/-- Modelled from the spec: the `ConfigurationError` signalled when the
level-rate computation would divide by zero. -/
inductive AllocError where
  | configurationError
deriving DecidableEq, Repr

/-- Modelled from the spec: one row of the Allocation Engine's output
(a `MonthlyPlan`), with the month's opening inventory carried alongside so
that the material-balance law is a per-row statement. -/
structure MonthlyPlan where
  demand : ℚ
  capacity : ℚ
  openingInventory : ℚ
  standardUnits : ℚ
  overtimeUnits : ℚ
  subcontractUnits : ℚ
  endingInventory : ℚ
deriving DecidableEq, Repr

/-- Modelled from the spec: one Chase month.  Produce `baseCapacity` as
standard units; `net = demand - inventory - standardUnits`; if `net > 0`,
overtime is `min net maxOT`, subcontract is `max 0 (net - overtime)` and
inventory resets to 0, else the surplus `-net` becomes inventory. -/
def chaseMonth (dm cap maxOT inv : ℚ) : MonthlyPlan :=
  let net := dm - inv - cap
  if 0 < net then
    let ot := min net maxOT
    ⟨dm, cap, inv, cap, ot, max 0 (net - ot), 0⟩
  else
    ⟨dm, cap, inv, cap, 0, 0, inv + cap - dm⟩

/-- Modelled from the spec: one Level month.  `target = levelRate * weeks`;
fill the target from standard capacity, then overtime up to `maxOT`, then
subcontract; a negative ending inventory is absorbed by an emergency
subcontract top-up and clamped to 0. -/
def levelMonth (levelRate weeks dm cap maxOT inv : ℚ) : MonthlyPlan :=
  let target := levelRate * weeks
  let std := min target cap
  let ot := min (target - std) maxOT
  let sub := target - std - ot
  let e := inv + std + ot + sub - dm
  if e < 0 then
    ⟨dm, cap, inv, std, ot, sub - e, 0⟩
  else
    ⟨dm, cap, inv, std, ot, sub, e⟩

/-- Modelled from the spec: one Subcontract-Heavy month.  Standard capacity
first; any shortfall beyond opening inventory is met entirely by
subcontract (no overtime); surplus becomes inventory. -/
def subcontractHeavyMonth (dm cap inv : ℚ) : MonthlyPlan :=
  let net := dm - inv - cap
  if 0 < net then
    ⟨dm, cap, inv, cap, 0, net, 0⟩
  else
    ⟨dm, cap, inv, cap, 0, 0, inv + cap - dm⟩

/-- Modelled from the spec: dispatch one month of the engine.  The month's
base capacity is `productionWeeks * weeklyBaseCapacity` and its overtime
ceiling is `productionWeeks * weeklyOvertimeLimit`; Hybrid is Chase with the
overtime ceiling halved. -/
def stepMonth (s : Strategy) (levelRate wbc wol inv dm pw : ℚ) : MonthlyPlan :=
  let cap := pw * wbc
  let maxOT := pw * wol
  match s with
  | .chase => chaseMonth dm cap maxOT inv
  | .level => levelMonth levelRate pw dm cap maxOT inv
  | .subcontractHeavy => subcontractHeavyMonth dm cap inv
  | .hybrid => chaseMonth dm cap (maxOT / 2) inv

/-- Modelled from the spec: the month loop, processing `(demand, weeks)`
pairs strictly in calendar order and carrying each month's ending inventory
into the next month as its opening inventory. -/
def allocateGo (s : Strategy) (levelRate wbc wol : ℚ) :
    ℚ → List (ℚ × ℚ) → List MonthlyPlan
  | _, [] => []
  | inv, (dm, pw) :: rest =>
    let p := stepMonth s levelRate wbc wol inv dm pw
    p :: allocateGo s levelRate wbc wol p.endingInventory rest

/-- Modelled from the spec: the Allocation Engine's contract
`allocate(demand, productionWeeks, weeklyBaseCapacity, weeklyOvertimeLimit,
strategy, openingInventory)`.  The Level strategy's annual rate is
`sum demand / sum productionWeeks`, computed once before the loop; when that
denominator is zero the engine signals `ConfigurationError` instead of
dividing by zero. -/
def allocate (s : Strategy) (demand pw : List ℚ) (wbc wol inv0 : ℚ) :
    Except AllocError (List MonthlyPlan) :=
  if s = Strategy.level ∧ pw.sum = 0 then
    .error .configurationError
  else
    .ok (allocateGo s (demand.sum / pw.sum) wbc wol inv0 (demand.zip pw))

/-- The material-balance law of the spec, as a per-row predicate. -/
def materialBalance (p : MonthlyPlan) : Prop :=
  p.standardUnits + p.overtimeUnits + p.subcontractUnits + p.openingInventory
    = p.demand + p.endingInventory

instance (p : MonthlyPlan) : Decidable (materialBalance p) := by
  unfold materialBalance; infer_instance

/-- The Volume_2000 demand series as rationals, the engine's input type. -/
def caseDemandQ : List ℚ :=
  volume_2000_Total_months_demand.map (fun n => (n : ℚ))

/-- The Volume_2000 production-weeks series as rationals. -/
def casePWQ : List ℚ :=
  volume_2000_Production_weeks.map (fun n => (n : ℚ))


lemma chaseMonth_balance (dm cap maxOT inv : ℚ) :
    materialBalance (chaseMonth dm cap maxOT inv) := by
  unfold chaseMonth materialBalance
  dsimp only
  split_ifs with h
  · have hle : min (dm - inv - cap) maxOT ≤ dm - inv - cap := min_le_left _ _
    rw [max_eq_right (by linarith)]
    ring
  · ring

lemma levelMonth_balance (levelRate weeks dm cap maxOT inv : ℚ) :
    materialBalance (levelMonth levelRate weeks dm cap maxOT inv) := by
  unfold levelMonth materialBalance
  dsimp only
  split_ifs with h
  · ring
  · ring

lemma subcontractHeavyMonth_balance (dm cap inv : ℚ) :
    materialBalance (subcontractHeavyMonth dm cap inv) := by
  unfold subcontractHeavyMonth materialBalance
  dsimp only
  split_ifs with h
  · ring
  · ring

lemma stepMonth_balance (s : Strategy) (levelRate wbc wol inv dm pw : ℚ) :
    materialBalance (stepMonth s levelRate wbc wol inv dm pw) := by
  cases s
  · exact chaseMonth_balance ..
  · exact levelMonth_balance ..
  · exact subcontractHeavyMonth_balance ..
  · exact chaseMonth_balance ..

lemma allocateGo_balance (s : Strategy) (levelRate wbc wol : ℚ)
    (l : List (ℚ × ℚ)) :
    ∀ inv : ℚ, ∀ p ∈ allocateGo s levelRate wbc wol inv l, materialBalance p := by
  induction l with
  | nil =>
    intro inv p hp
    simp [allocateGo] at hp
  | cons hd tl ih =>
    intro inv p hp
    obtain ⟨dm, pw⟩ := hd
    simp only [allocateGo, List.mem_cons] at hp
    rcases hp with h | h
    · subst h
      exact stepMonth_balance ..
    · exact ih _ p h

/-- Claim C1: the case data written by the generator equals the spec's
end-to-end fixture: `Total_months_demand` is exactly the fixture demand
series, `Production_weeks` is exactly the fixture week counts, and the
`Capacity_drives_per_week` parameter of the Costs sheet equals 16500. -/
theorem C1_case_fixture :
    volume_2000_Total_months_demand =
      [71520, 75440, 93500, 78400, 85750, 60000, 60000, 75000, 62000, 82500, 68000, 96000] ∧
    volume_2000_Production_weeks = [4, 3, 4, 4, 5, 4, 3, 3, 4, 5, 4, 4] ∧
    costsTable.lookup "Capacity_drives_per_week" = some 16500 := by
  exact ⟨rfl, rfl, by decide⟩

/-- Claim C2, counterexample: the Volume_2000 sheet's column list is not
`[Month, Production_weeks, Sales_weeks, Avg_weekly_demand,
Total_monthly_demand]` — the demand column is named `Total_months_demand`
and there is a sixth column `Cumulative_demand`. -/
theorem C2_columns_cex :
    volume_2000_columns ≠
      ["Month", "Production_weeks", "Sales_weeks", "Avg_weekly_demand",
       "Total_monthly_demand"] := by
  decide

/-- Claim C2, amended: the Volume_2000 sheet has exactly the columns
`Month, Production_weeks, Sales_weeks, Avg_weekly_demand,
Total_months_demand, Cumulative_demand`, each with exactly 12 rows. -/
theorem C2_input_table_shape :
    volume_2000_columns =
      ["Month", "Production_weeks", "Sales_weeks", "Avg_weekly_demand",
       "Total_months_demand", "Cumulative_demand"] ∧
    monthLabels.length = 12 ∧
    volume_2000_Production_weeks.length = 12 ∧
    volume_2000_Sales_weeks.length = 12 ∧
    volume_2000_Avg_weekly_demand.length = 12 ∧
    volume_2000_Total_months_demand.length = 12 ∧
    volume_2000_Cumulative_demand.length = 12 := by
  exact ⟨rfl, rfl, rfl, rfl, rfl, rfl, rfl⟩

/-- Claim C3: on the base-scenario fixture the Chase strategy's January row
has base capacity 66000 (= 4 * 16500), overtime 5520 (= the net
71520 - 0 - 66000, which is below the overtime ceiling), no subcontracting,
and zero ending inventory. -/
theorem C3_chase_january :
    (allocate Strategy.chase caseDemandQ casePWQ 16500 7425 0).toOption.bind
        List.head? =
      some { demand := 71520, capacity := 66000, openingInventory := 0,
             standardUnits := 66000, overtimeUnits := 5520,
             subcontractUnits := 0, endingInventory := 0 } := by
  have hd : caseDemandQ = (71520 : ℚ) ::
      [75440, 93500, 78400, 85750, 60000, 60000, 75000, 62000, 82500, 68000, 96000] := by
    norm_num [caseDemandQ, volume_2000_Total_months_demand]
  have hp : casePWQ = (4 : ℚ) :: [3, 4, 4, 5, 4, 3, 3, 4, 5, 4, 4] := by
    norm_num [casePWQ, volume_2000_Production_weeks]
  rw [hd, hp]
  simp only [allocate, List.zip_cons_cons, allocateGo, stepMonth, chaseMonth]
  norm_num [min_def, max_def, Except.toOption, List.head?]

/-- Claim C4: for every month and every strategy, any plan list the
allocation engine returns satisfies the material-balance equation
`standard + overtime + subcontract + openingInventory =
demand + endingInventory`. -/
theorem C4_material_balance (s : Strategy) (demand pw : List ℚ)
    (wbc wol inv0 : ℚ) (plans : List MonthlyPlan)
    (hok : allocate s demand pw wbc wol inv0 = Except.ok plans) :
    ∀ p ∈ plans, materialBalance p := by
  unfold allocate at hok
  split_ifs at hok with hguard
  rw [Except.ok.injEq] at hok
  subst hok
  exact allocateGo_balance s (demand.sum / pw.sum) wbc wol (demand.zip pw) inv0

/-- Witness for claim C4: the balance law, instantiated on a concrete
one-month Chase run (demand 100, one week, base capacity 60, overtime
limit 30, opening inventory 0). -/
theorem C4_material_balance_witness :
    materialBalance { demand := 100, capacity := 60, openingInventory := 0,
                      standardUnits := 60, overtimeUnits := 30,
                      subcontractUnits := 10, endingInventory := 0 } :=
  C4_material_balance Strategy.chase [100] [1] 60 30 0
    [{ demand := 100, capacity := 60, openingInventory := 0,
       standardUnits := 60, overtimeUnits := 30,
       subcontractUnits := 10, endingInventory := 0 }]
    (by norm_num [allocate, allocateGo, stepMonth, chaseMonth, min_def, max_def])
    _ (List.mem_singleton.mpr rfl)

/-- Claim C5: every entry of the `Production_weeks` and `Sales_weeks`
columns is strictly positive, the production-weeks sum is positive, and the
level strategy run on the case data does not take the `ConfigurationError`
branch. -/
theorem C5_positive_weeks_no_config_error :
    (∀ w ∈ volume_2000_Production_weeks, 0 < w) ∧
    (∀ w ∈ volume_2000_Sales_weeks, 0 < w) ∧
    0 < volume_2000_Production_weeks.sum ∧
    (allocate Strategy.level caseDemandQ casePWQ 16500 7425 0).toOption.isSome
      = true := by
  have hs : casePWQ.sum = 47 := by
    norm_num [casePWQ, volume_2000_Production_weeks]
  refine ⟨by decide, by decide, by decide, ?_⟩
  norm_num [allocate, hs, Except.toOption]

/-- Claim C6, counterexample: the Costs sheet has no entry under any of the
spec's scalar names `weekly_capacity`, `inventory_holding_cost`,
`overtime_cost_weekday`, `subcontract_cost`, `warehouse_capacity`. -/
theorem C6_spec_names_absent :
    costsTable.lookup "weekly_capacity" = none ∧
    costsTable.lookup "inventory_holding_cost" = none ∧
    costsTable.lookup "overtime_cost_weekday" = none ∧
    costsTable.lookup "subcontract_cost" = none ∧
    costsTable.lookup "warehouse_capacity" = none := by
  decide

/-- Claim C6, amended: the Costs sheet maps each consumed scalar to a value
under the generator's own parameter names — `Capacity_drives_per_week`
(weekly capacity), `Holding_cost_pct_annual` (inventory holding cost),
`Overtime_weekday_mult` (weekday overtime cost), `Subcontract_cost_min_pct`
and `Subcontract_cost_max_pct` (subcontract cost), and
`Warehouse_capacity_drives` (warehouse capacity). -/
theorem C6_generator_parameter_names :
    (costsTable.lookup "Capacity_drives_per_week").isSome = true ∧
    (costsTable.lookup "Holding_cost_pct_annual").isSome = true ∧
    (costsTable.lookup "Overtime_weekday_mult").isSome = true ∧
    (costsTable.lookup "Subcontract_cost_min_pct").isSome = true ∧
    (costsTable.lookup "Subcontract_cost_max_pct").isSome = true ∧
    (costsTable.lookup "Warehouse_capacity_drives").isSome = true := by
  decide

/-- Claim C7: the recorded cost constants, converted to the spec's units
(the percentage entries divided by 100, the multipliers taken as is), lie
within the recognized configuration ranges: holding in [0.05, 0.50],
overtime multipliers in [1.0, 3.0], subcontract multipliers in
[1.0, 2.0]. -/
theorem C7_cost_ranges :
    (5 / 100 : ℚ) ≤ (costsTable.lookup "Holding_cost_pct_annual").getD 0 / 100 ∧
    (costsTable.lookup "Holding_cost_pct_annual").getD 0 / 100 ≤ 50 / 100 ∧
    (1 : ℚ) ≤ (costsTable.lookup "Overtime_weekday_mult").getD 0 ∧
    (costsTable.lookup "Overtime_weekday_mult").getD 0 ≤ 3 ∧
    (1 : ℚ) ≤ (costsTable.lookup "Overtime_sunday_mult").getD 0 ∧
    (costsTable.lookup "Overtime_sunday_mult").getD 0 ≤ 3 ∧
    (1 : ℚ) ≤ (costsTable.lookup "Subcontract_cost_min_pct").getD 0 / 100 ∧
    (costsTable.lookup "Subcontract_cost_min_pct").getD 0 / 100 ≤ 2 ∧
    (1 : ℚ) ≤ (costsTable.lookup "Subcontract_cost_max_pct").getD 0 / 100 ∧
    (costsTable.lookup "Subcontract_cost_max_pct").getD 0 / 100 ≤ 2 := by
  refine ⟨?_, ?_, ?_, ?_, ?_, ?_, ?_, ?_, ?_, ?_⟩ <;>
    simp [costsTable, costs_Parameter, costs_Value, List.lookup] <;> norm_num

/-- Claim C8: the `Cumulative_demand` column is the running-totals sequence
of `Total_months_demand`, and its final entry, 908110, is exactly the
annual-demand figure displayed by the dashboard's stats banner. -/
theorem C8_cumulative_running_totals :
    volume_2000_Cumulative_demand = runningTotals volume_2000_Total_months_demand ∧
    volume_2000_Cumulative_demand.getLast? = some dashboardAnnualDemand ∧
    dashboardAnnualDemand = 908110 := by
  exact ⟨by decide, by decide, rfl⟩

/-- Claim C9: every entry of `Total_months_demand` is the corresponding
`Avg_weekly_demand` entry times the corresponding `Sales_weeks` entry
(monthly demand is derived from sales weeks). -/
theorem C9_demand_from_sales_weeks :
    volume_2000_Total_months_demand =
      List.zipWith (· * ·) volume_2000_Avg_weekly_demand volume_2000_Sales_weeks := by
  decide

/-- Claim C10, code bug: the Actual_1999 sheet's `Total` column is the sum
of its `Consumer`, `PC` and `Professional` columns in every month, but the
Forecast_2000_weekly sheet's `Total` column is not: its January entry is
17800 while January's components sum to 17880; every later month agrees,
and the Volume_2000 sheet records 17880 as January's average weekly demand,
so the 17800 cell contradicts the rest of the generator's own data. -/
theorem C10_forecast_total_mismatch :
    actual_1999_Total =
      List.zipWith (· + ·)
        (List.zipWith (· + ·) actual_1999_Consumer actual_1999_PC)
        actual_1999_Professional ∧
    forecast_2000_weekly_Total ≠
      List.zipWith (· + ·)
        (List.zipWith (· + ·) forecast_2000_weekly_Consumer forecast_2000_weekly_PC)
        forecast_2000_weekly_Professional ∧
    forecast_2000_weekly_Total.head? = some 17800 ∧
    (List.zipWith (· + ·)
        (List.zipWith (· + ·) forecast_2000_weekly_Consumer forecast_2000_weekly_PC)
        forecast_2000_weekly_Professional).head? = some 17880 ∧
    forecast_2000_weekly_Total.tail =
      (List.zipWith (· + ·)
        (List.zipWith (· + ·) forecast_2000_weekly_Consumer forecast_2000_weekly_PC)
        forecast_2000_weekly_Professional).tail ∧
    volume_2000_Avg_weekly_demand.head? = some 17880 := by
  decide
